import Mathlib

/-!
Verification of the LIS result-ingestion and lifecycle core.

The definitions below are a shallow embedding of the Python sources:

* `src/db.py`    — entity model (`Patient`, `ResultDetails`, `Doctor`) and the
  create/search/update operations on them.  SQLAlchemy rows are modelled as
  records in insertion-ordered lists; auto-increment primary keys are modelled
  by explicit counters in the `DB` state.
* `src/astm_parser.py` — `parse_astm`.
* `src/main.py`  — the frame-extraction step of `ServerThread.run`
  (lines 1269–1277).

`DateTime` values are modelled as seconds since an epoch.  On SQLite the
column is stored as the text `YYYY-MM-DD HH:MM:SS.ffffff` and a Python `date`
bind parameter is rendered by the sqlite dialect with a zero time part, so the
comparisons in `search_results` are plain chronological comparisons; a `date`
value denotes the first second of its day.  `timedelta(days=1)` is 86400
seconds.
-/

/-- Row of the `patients` table (src/db.py, class `Patient`). -/
structure PatientRec where
  id : Nat
  patient_id : String
  name : String
  age : String
  gender : String
  phone_number : String
deriving Repr, DecidableEq

/-- Row of the `result_details` table (src/db.py, class `ResultDetails`). -/
structure ResultRec where
  id : Nat
  sample_id : String
  test_name : String
  test_result : String
  unit : String
  reference_range : String
  date_time : Int
  patient_fk : Option Nat
  verified_by_doctor_id : Option Nat
  finalized_by_doctor_id : Option Nat
  status : String
deriving Repr, DecidableEq

/-- Row of the `doctors` table (src/db.py, class `Doctor`).  The Python
attribute `type` is called `doctor_type` here. -/
structure DoctorRec where
  id : Nat
  doctor_id : String
  name : String
  designation : String
  age : Int
  gender : String
  phone_number : String
  doctor_type : String
deriving Repr, DecidableEq

/-- The persistent store: the three tables in insertion order together with
the next auto-increment primary key of each. -/
structure DB where
  patients : List PatientRec
  doctors : List DoctorRec
  results : List ResultRec
  nextPatientPK : Nat
  nextDoctorPK : Nat
  nextResultPK : Nat
deriving Repr, DecidableEq

/-- The freshly created (empty) store. -/
def initDB : DB := ⟨[], [], [], 1, 1, 1⟩

/-- Replace the first element satisfying `p` (SQLAlchemy mutates the single
object returned by `query(...).filter(...).first()`). -/
def updateFirst (p : α → Bool) (f : α → α) : List α → List α
  | [] => []
  | a :: l => if p a then f a :: l else a :: updateFirst p f l

/-- Row returned by `query(T).order_by(T.id.desc()).first()`: the row with
the greatest primary key. -/
def maxByPK (pk : α → Nat) : List α → Option α
  | [] => none
  | a :: l =>
    match maxByPK pk l with
    | none => some a
    | some b => if pk b > pk a then some b else some a

/-- Digit-string value accumulator for `pyInt?`. -/
def digitsVal : List Char → Nat → Option Nat
  | [], acc => some acc
  | c :: l, acc =>
    if c.isDigit then digitsVal l (acc * 10 + (c.toNat - '0'.toNat)) else none

/-- Python `int(s)` for the digit strings that generated identifiers carry;
`none` models the `ValueError` raised on anything else. -/
def pyInt? (s : String) : Option Nat :=
  if s.data.isEmpty then none else digitsVal s.data 0

/-- Python `f"{n:07d}"` for a nonnegative value: decimal digits left-padded
with zeros to a minimum width of 7. -/
def pad7 (n : Nat) : String :=
  let s := toString n
  String.mk (List.replicate (7 - s.length) '0') ++ s

/-- src/db.py `get_next_patient_id` (lines 113–119): read the row with the
greatest primary key and increment the numeric part of its external
identifier; `none` models the exception on an unparsable identifier. -/
def get_next_patient_id (patients : List PatientRec) : Option String :=
  match maxByPK (fun p => p.id) patients with
  | some last_patient =>
    if last_patient.patient_id = "" then some "P0000001"
    else
      match pyInt? (last_patient.patient_id.drop 1) with
      | some last_id => some ("P" ++ pad7 (last_id + 1))
      | none => none
  | none => some "P0000001"

/-- src/db.py `get_next_doctor_id` (lines 209–215). -/
def get_next_doctor_id (doctors : List DoctorRec) : Option String :=
  match maxByPK (fun d => d.id) doctors with
  | some last_doctor =>
    if last_doctor.doctor_id = "" then some "DOC0000001"
    else
      match pyInt? (last_doctor.doctor_id.drop 3) with
      | some last_id_num => some ("DOC" ++ pad7 (last_id_num + 1))
      | none => none
  | none => some "DOC0000001"

/-- src/db.py `insert_result_details` (lines 81–95).  The `date_time`
argument is the caller-supplied timestamp (`datetime.now()` is supplied by
the environment when absent); `status` takes the column default
`"Pending"`. -/
def insert_result_details (db : DB)
    (sample_id test_name test_result unit reference_range : String)
    (date_time : Int) : ResultRec × DB :=
  let db_result : ResultRec :=
    { id := db.nextResultPK, sample_id, test_name, test_result, unit,
      reference_range, date_time, patient_fk := none,
      verified_by_doctor_id := none, finalized_by_doctor_id := none,
      status := "Pending" }
  (db_result, { db with results := db.results ++ [db_result],
                        nextResultPK := db.nextResultPK + 1 })

/-- src/db.py `update_result_verification` (lines 258–266). -/
def update_result_verification (db : DB) (result_id doctor_id : Nat) :
    Option ResultRec × DB :=
  match db.results.find? (fun r => r.id == result_id) with
  | some r =>
    let r' := { r with verified_by_doctor_id := some doctor_id,
                       status := "Verified" }
    (some r', { db with
      results := updateFirst (fun x => x.id == result_id) (fun _ => r') db.results })
  | none => (none, db)

/-- src/db.py `update_result_finalization` (lines 268–280). -/
def update_result_finalization (db : DB) (result_id doctor_id : Nat) :
    Option ResultRec × DB :=
  match db.results.find? (fun r => r.id == result_id) with
  | some r =>
    let r1 := if r.status = "Pending"
      then { r with verified_by_doctor_id := some doctor_id } else r
    let r' := { r1 with finalized_by_doctor_id := some doctor_id,
                        status := "Finalized" }
    (some r', { db with
      results := updateFirst (fun x => x.id == result_id) (fun _ => r') db.results })
  | none => (none, db)

/-- src/db.py `create_patient_for_result` (lines 121–145).  The outer `none`
models an uncaught exception from `get_next_patient_id`; `some (none, db)`
models `return None` on a missing result. -/
def create_patient_for_result (db : DB) (result_id : Nat)
    (name age gender phone_number : String) :
    Option (Option PatientRec × DB) :=
  match db.results.find? (fun r => r.id == result_id) with
  | none => some (none, db)
  | some result =>
    match result.patient_fk.bind
        (fun pid => db.patients.find? (fun p => p.id == pid)) with
    | some patient =>
      let patient' := { patient with name, age, gender, phone_number }
      some (some patient', { db with
        patients := updateFirst (fun p => p.id == patient.id)
          (fun _ => patient') db.patients })
    | none =>
      match get_next_patient_id db.patients with
      | none => none
      | some ext =>
        let patient : PatientRec :=
          { id := db.nextPatientPK, patient_id := ext, name, age, gender,
            phone_number }
        some (some patient, { db with
          patients := db.patients ++ [patient],
          nextPatientPK := db.nextPatientPK + 1,
          results := updateFirst (fun r => r.id == result_id)
            (fun r => { r with patient_fk := some patient.id }) db.results })

/-! ### The search layer (src/db.py `search_results`, lines 282–313)

The second definition of `search_results` in the file is the one in effect
(Python rebinds the name).  Text filters use SQL `LIKE '%v%'`, which on
SQLite is an ASCII-case-insensitive substring match.  Python treats an empty
or absent string argument as "no filter" (`if sample_id:`), and a supplied
`date` as always-truthy, hence the `Option` types below. -/

/-- Run of `pat` starting at the head of `s`. -/
def seqStarts : List Char → List Char → Bool
  | [], _ => true
  | _ :: _, [] => false
  | a :: ps, b :: ss => a == b && seqStarts ps ss

/-- Occurrence of `pat` anywhere inside `s`. -/
def seqInside (pat s : List Char) : Bool :=
  match s with
  | [] => pat.isEmpty
  | _ :: ss => seqStarts pat s || seqInside pat ss

/-- SQL `col LIKE '%v%'` on SQLite: substring match, ASCII case folded. -/
def likeSub (v s : String) : Bool :=
  seqInside (v.data.map Char.toLower) (s.data.map Char.toLower)

/-- Python truthiness of an optional string argument. -/
def strSet (o : Option String) : Bool :=
  match o with
  | some s => s != ""
  | none => false

/-- The keyword arguments of `search_results`; `none` / `false` are the
Python defaults.  Dates carry the day number: the Python callers pass
`date` values, which denote second `d * 86400` of the model timeline. -/
structure ResultsQuery where
  sample_id : Option String := none
  patient_id : Option String := none
  patient_name : Option String := none
  test_name : Option String := none
  from_date : Option Int := none
  to_date : Option Int := none
  without_patient_info : Bool := false
  status : Option String := none
deriving Repr, DecidableEq

/-- Conjunct of `search_results` for the `sample_id` filter. -/
def sampleOk (q : ResultsQuery) (r : ResultRec) : Bool :=
  !strSet q.sample_id || likeSub (q.sample_id.getD "") r.sample_id

/-- Conjunct of `search_results` for the patient-related filters: a supplied
patient id or name forces the inner join with `patients`; otherwise
`without_patient_info` restricts to rows with a NULL foreign key. -/
def patientOk (db : DB) (q : ResultsQuery) (r : ResultRec) : Bool :=
  if strSet q.patient_id || strSet q.patient_name then
    match r.patient_fk with
    | some pid =>
      db.patients.any (fun p =>
        p.id == pid
        && (!strSet q.patient_id || likeSub (q.patient_id.getD "") p.patient_id)
        && (!strSet q.patient_name || likeSub (q.patient_name.getD "") p.name))
    | none => false
  else if q.without_patient_info then r.patient_fk == none
  else true

/-- Conjunct of `search_results` for the `test_name` filter. -/
def testOk (q : ResultsQuery) (r : ResultRec) : Bool :=
  !strSet q.test_name || likeSub (q.test_name.getD "") r.test_name

/-- Conjunct for `date_time >= from_date` (the `date` bind renders as the
first second of its day). -/
def fromOk (q : ResultsQuery) (r : ResultRec) : Bool :=
  match q.from_date with
  | some f => decide (f * 86400 ≤ r.date_time)
  | none => true

/-- Conjunct for `date_time <= to_date + timedelta(days=1)`. -/
def toOk (q : ResultsQuery) (r : ResultRec) : Bool :=
  match q.to_date with
  | some t => decide (r.date_time ≤ (t + 1) * 86400)
  | none => true

/-- Conjunct for the status filter: `if status and status != "All"`. -/
def statusOk (q : ResultsQuery) (r : ResultRec) : Bool :=
  match q.status with
  | some v => if v != "" && v != "All" then r.status == v else true
  | none => true

/-- Membership predicate of the `search_results` query: all supplied filters
combine with AND. -/
def matchesQuery (db : DB) (q : ResultsQuery) (r : ResultRec) : Bool :=
  sampleOk q r && patientOk db q r && testOk q r && fromOk q r && toOk q r
    && statusOk q r

/-- src/db.py `search_results` (lines 282–313): the rows of `result_details`
satisfying every supplied filter. -/
def search_results (db : DB) (q : ResultsQuery) : List ResultRec :=
  db.results.filter (matchesQuery db q)

/-! ### The message parser (src/astm_parser.py `parse_astm`) -/

/-- Splitting a character list on a separator character; every occurrence
separates, so consecutive separators yield empty pieces. -/
def splitOnChar (sep : Char) : List Char → List (List Char)
  | [] => [[]]
  | c :: rest =>
    if c == sep then [] :: splitOnChar sep rest
    else
      match splitOnChar sep rest with
      | h :: t => (c :: h) :: t
      | [] => [[c]]

/-- Python `s.split(sep)` for a one-character separator. -/
def pySplit (sep : Char) (s : String) : List String :=
  (splitOnChar sep s.data).map String.mk

/-- Python `str.strip` whitespace (ASCII). -/
def pyIsSpace (c : Char) : Bool :=
  c == ' ' || c == '\t' || c == '\n' || c == '\r' || c == '\x0b' || c == '\x0c'

/-- Python `s.strip()`. -/
def pyStrip (s : String) : String :=
  String.mk (((s.data.dropWhile pyIsSpace).reverse.dropWhile pyIsSpace).reverse)

/-- The flat output map of the parser; a `none` field models an absent
dictionary key. -/
structure AstmData where
  sample_id : Option String := none
  test_name : Option String := none
  value : Option String := none
  unit : Option String := none
  ref_range : Option String := none
  status : Option String := none
  datetime : Option String := none
deriving Repr, DecidableEq

/-- Body of the segment loop of `parse_astm`: update the map from one
segment. -/
def parseSegment (data : AstmData) (segment : String) : AstmData :=
  let fields := pySplit '|' segment
  let segment_type := fields.headD ""
  if segment_type = "O" then
    let data := if fields.length > 2
      then { data with sample_id := some (fields.getD 2 "") } else data
    let data := if fields.length > 4 then
        let components := pySplit '^' (fields.getD 4 "")
        if components.length > 3
          then { data with test_name := some (components.getD 3 "") } else data
      else data
    data
  else if segment_type = "R" then
    let data := if fields.length > 3
      then { data with value := some (fields.getD 3 "") } else data
    let data := if fields.length > 4
      then { data with unit := some (fields.getD 4 "") } else data
    let data := if fields.length > 5
      then { data with ref_range := some (fields.getD 5 "") } else data
    let data := if fields.length > 8
      then { data with status := some (fields.getD 8 "") } else data
    let data := if fields.length > 11
      then { data with datetime := some (fields.getD 11 "") } else data
    data
  else data

/-- src/astm_parser.py `parse_astm` (lines 1–36). -/
def parse_astm (astm_string : String) : AstmData :=
  ((pySplit '\r' (pyStrip astm_string)).foldl parseSegment {})

/-! Spec-side rendering of the parser claim (C4), written from the claim's
words: each output field carries the value contributed by the last segment
that produces it ("the later segment's value wins"); a segment contributes a
field only when its tag is recognized and the rule's index is inside the
field (or component) array. -/

/-- Contribution of one segment (already split into fields) to the sample
identifier: an `O` segment's field 2, skipped when out of range. -/
def contribSample (fields : List String) : Option String :=
  if fields.headD "" = "O" then
    if fields.length > 2 then some (fields.getD 2 "") else none
  else none

/-- Contribution to the test name: component 3 of an `O` segment's field 4
split on `^`, skipped when either index is out of range. -/
def contribTest (fields : List String) : Option String :=
  if fields.headD "" = "O" then
    if fields.length > 4 then
      let components := pySplit '^' (fields.getD 4 "")
      if components.length > 3 then some (components.getD 3 "") else none
    else none
  else none

/-- Contribution of an `R` segment's field `i`, skipped when out of
range. -/
def contribR (i : Nat) (fields : List String) : Option String :=
  if fields.headD "" = "R" then
    if fields.length > i then some (fields.getD i "") else none
  else none

/-- Value of one output field over a segment list: the contribution of the
last segment that produces it, if any. -/
def lastContrib (c : List String → Option String) : List String → Option String
  | [] => none
  | seg :: rest =>
    match lastContrib c rest with
    | some v => some v
    | none => c (pySplit '|' seg)

/-- The parser contract as the claim states it: split the payload on
carriage-return, each segment on `|`, extract by the tag rules,
last-write-wins. -/
def parseAstmSpec (payload : String) : AstmData :=
  let segs := pySplit '\r' payload
  { sample_id := lastContrib contribSample segs
    test_name := lastContrib contribTest segs
    value := lastContrib (contribR 3) segs
    unit := lastContrib (contribR 4) segs
    ref_range := lastContrib (contribR 5) segs
    status := lastContrib (contribR 8) segs
    datetime := lastContrib (contribR 11) segs }

/-! ### The frame decoder (src/main.py `ServerThread.run`, lines 1269–1277)

Buffers are byte lists; the payload is returned as the raw byte range (its
utf-8 decoding is not modelled — the claims are about which bytes are
selected). -/

/-- Python `bytes.find(b)`: index of the first occurrence, `none` for the
sentinel `-1`. -/
def pyFindByte (b : Nat) : List Nat → Option Nat
  | [] => none
  | c :: l => if c == b then some 0 else (pyFindByte b l).map (· + 1)

/-- The frame-extraction step of `ServerThread.run`: `stx = data.find(0x02)`,
`etx = data.find(0x03)`, and on success the slice `data[stx+1:etx]`. -/
def frameDecode (data : List Nat) : Option (List Nat) :=
  match pyFindByte 2 data, pyFindByte 3 data with
  | some stx, some etx => some ((data.take etx).drop (stx + 1))
  | _, _ => none

/-- The decoder contract as the claim states it: the bytes strictly between
the first 0x02 and the first 0x03 **following it**; no payload when either
marker is absent. -/
def frameDecodeSpec (data : List Nat) : Option (List Nat) :=
  match pyFindByte 2 data with
  | none => none
  | some stx =>
    match pyFindByte 3 (data.drop (stx + 1)) with
    | none => none
    | some k => some ((data.drop (stx + 1)).take k)

/-! ### Interleaving model for identifier generation (C10)

`create_patient_for_result` (new-patient branch, src/db.py lines 132–143)
performs an unsynchronized read-compute-write: it reads the last patient row
to compute the next external identifier and only then commits the new row.
Two sessions may interleave these steps.  A thread is at `pc = 0` before its
read, holds its computed identifier at `pc = 1`, and has committed at
`pc = 2`. -/

/-- Local state of one in-flight patient-creation call. -/
structure ThreadSt where
  pc : Nat
  ident : Option String
deriving Repr, DecidableEq

/-- Shared-plus-local state of two concurrent patient-creation calls. -/
structure ConcState where
  patients : List PatientRec
  th1 : ThreadSt
  th2 : ThreadSt
deriving Repr, DecidableEq

/-- One atomic step of a patient-creation call: the identifier read/compute
(lines 133–134), then the insert/commit (lines 139–143). -/
def createStep (patients : List PatientRec) (t : ThreadSt) :
    ThreadSt × List PatientRec :=
  if t.pc == 0 then
    ({ pc := 1, ident := get_next_patient_id patients }, patients)
  else if t.pc == 1 then
    match t.ident with
    | some ext =>
      ({ t with pc := 2 },
       patients ++ [{ id := patients.length + 1, patient_id := ext,
                      name := "N", age := "30", gender := "F",
                      phone_number := "0" }])
    | none => (t, patients)
  else (t, patients)

/-- Scheduler step: run one step of thread 1 (`true`) or thread 2
(`false`). -/
def schedStep (s : ConcState) (choose1 : Bool) : ConcState :=
  if choose1 then
    let (t', ps') := createStep s.patients s.th1
    { s with th1 := t', patients := ps' }
  else
    let (t', ps') := createStep s.patients s.th2
    { s with th2 := t', patients := ps' }

/-- Run the two threads under a given interleaving. -/
def runSched (s : ConcState) (sched : List Bool) : ConcState :=
  sched.foldl schedStep s

/-! ### Reachability and the lifecycle invariant (C1) -/

/-- Store states reachable from the empty store by the core operations:
result insertion, patient linking, verification and finalization. -/
inductive Reachable : DB → Prop where
  | init : Reachable initDB
  | insertR (s t v u rr : String) (dt : Int) (db : DB) :
      Reachable db → Reachable (insert_result_details db s t v u rr dt).2
  | verifyR (rid did : Nat) (db : DB) :
      Reachable db → Reachable (update_result_verification db rid did).2
  | finalizeR (rid did : Nat) (db : DB) :
      Reachable db → Reachable (update_result_finalization db rid did).2
  | linkR (rid : Nat) (n a g ph : String) (db : DB)
      (out : Option PatientRec × DB) :
      Reachable db → create_patient_for_result db rid n a g ph = some out →
      Reachable out.2

/-- The lifecycle invariant exactly as the claim states it:
`finalized_by` set forces status `Finalized`; `verified_by` set forces
status `Verified` or `Finalized`. -/
def LifecycleClaimInv (db : DB) : Prop :=
  ∀ r ∈ db.results,
    (r.finalized_by_doctor_id ≠ none → r.status = "Finalized") ∧
    (r.verified_by_doctor_id ≠ none →
      r.status = "Verified" ∨ r.status = "Finalized")

/-- The invariant that actually holds on all reachable stores: either doctor
reference set forces status `Verified` or `Finalized` (re-verifying a
finalized result moves its status back to `Verified` while keeping
`finalized_by`). -/
def LifecycleInv (db : DB) : Prop :=
  ∀ r ∈ db.results,
    (r.finalized_by_doctor_id ≠ none →
      r.status = "Verified" ∨ r.status = "Finalized") ∧
    (r.verified_by_doctor_id ≠ none →
      r.status = "Verified" ∨ r.status = "Finalized")

/-! ### Query extension order (C7) -/

/-- Active status filter: a supplied, non-empty value other than the
sentinel `"All"`. -/
def statusActive (q : ResultsQuery) : Bool :=
  match q.status with
  | some v => v != "" && v != "All"
  | none => false

/-- Query `q'` extends `q`: every filter supplied in `q` is supplied in `q'`
with the same value (`q'` may supply more). -/
def extendsQ (q q' : ResultsQuery) : Prop :=
  (strSet q.sample_id = true → q'.sample_id = q.sample_id) ∧
  (strSet q.patient_id = true → q'.patient_id = q.patient_id) ∧
  (strSet q.patient_name = true → q'.patient_name = q.patient_name) ∧
  (strSet q.test_name = true → q'.test_name = q.test_name) ∧
  (q.from_date.isSome = true → q'.from_date = q.from_date) ∧
  (q.to_date.isSome = true → q'.to_date = q.to_date) ∧
  (q.without_patient_info = true → q'.without_patient_info = true) ∧
  (statusActive q = true → q'.status = q.status)

instance (q q' : ResultsQuery) : Decidable (extendsQ q q') := by
  unfold extendsQ; infer_instance

/-- First second of the day after day `t` (the claim's "start of the day
after `to`"). -/
def startOfDayAfter (t : Int) : Int := (t + 1) * 86400

/-- Last-write override: the second argument is kept only when the first
contributes nothing. -/
def ovr (new old : Option String) : Option String :=
  match new with
  | some v => some v
  | none => old

/-! ### Concrete fixtures used by counterexamples and witnesses -/

/-- Store after inserting one result, finalizing it and then re-verifying
it (doctor 7): the sequence that breaks the claimed invariant. -/
def c1db : DB :=
  (update_result_verification
    (update_result_finalization
      (insert_result_details initDB "S1" "GLU" "5.0" "mg/dL" "0-1" 0).2
      1 7).2
    1 7).2

/-- A result timestamped exactly at the first second of day 1. -/
def rMidnight : ResultRec :=
  ⟨1, "S1", "GLU", "5.0", "mg/dL", "0-1", 86400, none, none, none, "Pending"⟩

/-- A result timestamped at 23:59:59 of day 0. -/
def rLastSecond : ResultRec :=
  ⟨2, "S2", "GLU", "5.0", "mg/dL", "0-1", 86399, none, none, none, "Pending"⟩

/-- Store holding `rMidnight` and `rLastSecond`. -/
def c6db : DB := ⟨[], [], [rMidnight, rLastSecond], 1, 1, 3⟩

/-- A linked patient. -/
def c7patient : PatientRec := ⟨1, "P0000001", "Alice", "30", "F", "017"⟩

/-- A result with no linked patient. -/
def c7unlinked : ResultRec :=
  ⟨1, "S1", "GLU", "5.0", "mg/dL", "0-1", 0, none, none, none, "Pending"⟩

/-- A result linked to `c7patient`. -/
def c7linked : ResultRec :=
  ⟨2, "S2", "CREA", "1.0", "mg/dL", "0-2", 0, some 1, none, none, "Pending"⟩

/-- Store with one unlinked and one linked result. -/
def c7db : DB := ⟨[c7patient], [], [c7unlinked, c7linked], 2, 1, 3⟩

/-- Search for results without patient info. -/
def c7q : ResultsQuery := { without_patient_info := true }

/-- The same search with a patient-identifier filter added. -/
def c7q' : ResultsQuery :=
  { without_patient_info := true, patient_id := some "P" }

/-! ## Helper lemmas -/

theorem find?_updateFirst {α} (p : α → Bool) (f : α → α) :
    ∀ (l : List α) (r : α), l.find? p = some r → p (f r) = true →
      (updateFirst p f l).find? p = some (f r)
  | [], r, h, _ => by simp at h
  | a :: t, r, h, hf => by
    by_cases hpa : p a = true
    · have ha : a = r := by
        have := List.find?_cons_of_pos (p := p) t hpa
        rw [this] at h
        exact Option.some.inj h
      subst ha
      simp only [updateFirst, hpa, if_true]
      exact List.find?_cons_of_pos _ hf
    · have h' : t.find? p = some r := by
        rwa [List.find?_cons_of_neg _ (by simpa using hpa)] at h
      have ih := find?_updateFirst p f t r h' hf
      simp only [updateFirst, hpa, if_false, Bool.false_eq_true]
      rwa [List.find?_cons_of_neg _ (by simpa using hpa)]

theorem mem_updateFirst {α} {p : α → Bool} {f : α → α} {x : α} :
    ∀ {l : List α}, x ∈ updateFirst p f l → x ∈ l ∨ ∃ a ∈ l, x = f a
  | [], h => by simp [updateFirst] at h
  | a :: t, h => by
    by_cases hpa : p a = true
    · simp only [updateFirst, hpa, if_true, List.mem_cons] at h
      rcases h with h | h
      · exact Or.inr ⟨a, List.mem_cons_self a t, h⟩
      · exact Or.inl (List.mem_cons_of_mem a h)
    · simp only [updateFirst, hpa, if_false, Bool.false_eq_true,
        List.mem_cons] at h
      rcases h with h | h
      · exact Or.inl (h ▸ List.mem_cons_self a t)
      · rcases mem_updateFirst h with h' | ⟨b, hb, hx⟩
        · exact Or.inl (List.mem_cons_of_mem a h')
        · exact Or.inr ⟨b, List.mem_cons_of_mem a hb, hx⟩

theorem pyFindByte_drop (b : Nat) :
    ∀ (k : Nat) (l : List Nat) (e : Nat), pyFindByte b l = some e → k ≤ e →
      pyFindByte b (l.drop k) = some (e - k)
  | 0, l, e, h, _ => by simpa using h
  | k + 1, [], e, h, _ => by simp [pyFindByte] at h
  | k + 1, c :: t, e, h, hk => by
    by_cases hc : (c == b) = true
    · rw [pyFindByte, if_pos hc] at h
      injection h with h0
      omega
    · rw [pyFindByte, if_neg hc] at h
      rcases Option.map_eq_some'.mp h with ⟨e', he', rfl⟩
      have := pyFindByte_drop b k t e' he' (by omega)
      simpa [Nat.succ_sub_succ] using this

/-! ## C9 — operations on a missing result id perform no mutation -/

/-- C9: when no result has the given identifier, verification,
finalization and patient linking each return the empty/nil result and leave
the store completely unchanged. -/
theorem c9_notfound_no_mutation (db : DB) (rid did : Nat)
    (n a g ph : String)
    (h : db.results.find? (fun r => r.id == rid) = none) :
    update_result_verification db rid did = (none, db) ∧
    update_result_finalization db rid did = (none, db) ∧
    create_patient_for_result db rid n a g ph = some (none, db) := by
  refine ⟨?_, ?_, ?_⟩ <;>
    simp [update_result_verification, update_result_finalization,
      create_patient_for_result, h]

/-- Witness for C9 at the empty store and identifier 1. -/
theorem c9_witness :
    update_result_verification initDB 1 7 = (none, initDB) ∧
    update_result_finalization initDB 1 7 = (none, initDB) ∧
    create_patient_for_result initDB 1 "Ana" "44" "F" "011" =
      some (none, initDB) :=
  c9_notfound_no_mutation initDB 1 7 "Ana" "44" "F" "011" (by decide)

/-! ## C5 — identifier generation -/

/-- C5: with at least one patient (doctor) whose most recent external
identifier carries numeric suffix `n` (`m`), the generator returns the
prefix followed by the incremented suffix zero-padded to 7 digits; on an
empty table it returns the first value of the sequence. -/
theorem c5_identifier_generator (patients : List PatientRec)
    (doctors : List DoctorRec) (p : PatientRec) (d : DoctorRec) (n m : Nat)
    (hp : maxByPK (fun x => x.id) patients = some p)
    (hp1 : p.patient_id ≠ "")
    (hp2 : pyInt? (p.patient_id.drop 1) = some n)
    (hd : maxByPK (fun x => x.id) doctors = some d)
    (hd1 : d.doctor_id ≠ "")
    (hd2 : pyInt? (d.doctor_id.drop 3) = some m) :
    get_next_patient_id patients = some ("P" ++ pad7 (n + 1)) ∧
    get_next_doctor_id doctors = some ("DOC" ++ pad7 (m + 1)) ∧
    get_next_patient_id [] = some "P0000001" ∧
    get_next_doctor_id [] = some "DOC0000001" := by
  refine ⟨?_, ?_, rfl, rfl⟩
  · simp [get_next_patient_id, hp, hp1, hp2]
  · simp [get_next_doctor_id, hd, hd1, hd2]

/-- Witness for C5: a patient table ending at `P0000007` and a doctor table
ending at `DOC0000011`. -/
theorem c5_witness :
    get_next_patient_id [⟨1, "P0000007", "Ana", "44", "F", "011"⟩] =
      some ("P" ++ pad7 8) ∧
    get_next_doctor_id [⟨1, "DOC0000011", "Bo", "MD", 50, "M", "012", "Both"⟩] =
      some ("DOC" ++ pad7 12) ∧
    get_next_patient_id [] = some "P0000001" ∧
    get_next_doctor_id [] = some "DOC0000001" :=
  c5_identifier_generator [⟨1, "P0000007", "Ana", "44", "F", "011"⟩]
    [⟨1, "DOC0000011", "Bo", "MD", 50, "M", "012", "Both"⟩]
    ⟨1, "P0000007", "Ana", "44", "F", "011"⟩
    ⟨1, "DOC0000011", "Bo", "MD", 50, "M", "012", "Both"⟩ 7 11
    (by decide) (by decide) (by decide) (by decide) (by decide) (by decide)

/-! ## C10 — concurrent identifier generation -/

/-- C10: under the interleaving read–read–write–write, two concurrent
patient creations starting from an empty store both compute `P0000001` and
both commit; the unsynchronized read-last-row generator of
`create_patient_for_result` does not prevent the duplicate the specification
rules out. -/
theorem c10_duplicate_generated_id :
    (runSched ⟨[], ⟨0, none⟩, ⟨0, none⟩⟩ [true, false, true, false]).th1.ident
      = some "P0000001" ∧
    (runSched ⟨[], ⟨0, none⟩, ⟨0, none⟩⟩ [true, false, true, false]).th2.ident
      = some "P0000001" ∧
    (runSched ⟨[], ⟨0, none⟩, ⟨0, none⟩⟩ [true, false, true, false]).th1.pc = 2 ∧
    (runSched ⟨[], ⟨0, none⟩, ⟨0, none⟩⟩ [true, false, true, false]).th2.pc = 2
    := by decide

/-! ## C2 — the finalization transition -/

/-- C2: finalizing an existing result sets `finalized_by` to the doctor and
the status to `Finalized`; from `Pending` it also sets `verified_by` to the
doctor, from `Verified` it leaves `verified_by` unchanged.  The updated row
is both returned and stored. -/
theorem c2_finalize_transition (db : DB) (rid did : Nat) (r : ResultRec)
    (h : db.results.find? (fun x => x.id == rid) = some r) :
    ∃ r', (update_result_finalization db rid did).1 = some r' ∧
      r'.finalized_by_doctor_id = some did ∧
      r'.status = "Finalized" ∧
      (r.status = "Pending" → r'.verified_by_doctor_id = some did) ∧
      (r.status = "Verified" →
        r'.verified_by_doctor_id = r.verified_by_doctor_id) ∧
      (update_result_finalization db rid did).2.results.find?
        (fun x => x.id == rid) = some r' := by
  have hid := List.find?_some h
  refine ⟨{ (if r.status = "Pending"
      then { r with verified_by_doctor_id := some did } else r) with
      finalized_by_doctor_id := some did, status := "Finalized" },
    ?_, rfl, rfl, ?_, ?_, ?_⟩
  · simp [update_result_finalization, h]
  · intro hp
    simp [hp]
  · intro hv
    have hnp : ¬ r.status = "Pending" := by simp [hv]
    simp [hnp]
  · have harg : ((fun x => x.id == rid)
        ({ (if r.status = "Pending"
          then { r with verified_by_doctor_id := some did } else r) with
          finalized_by_doctor_id := some did,
          status := "Finalized" } : ResultRec)) = true := by
      have : (if r.status = "Pending"
          then { r with verified_by_doctor_id := some did } else r).id = r.id := by
        split <;> rfl
      simpa [this] using hid
    have hfind := find?_updateFirst (fun x => x.id == rid) (fun _ =>
      { (if r.status = "Pending"
        then { r with verified_by_doctor_id := some did } else r) with
        finalized_by_doctor_id := some did, status := "Finalized" })
      db.results r h harg
    simpa [update_result_finalization, h] using hfind

/-- Witness for C2: a store holding one Pending result with id 1. -/
theorem c2_witness :
    ∃ r', (update_result_finalization
        (insert_result_details initDB "S1" "GLU" "5.0" "mg/dL" "0-1" 0).2
        1 7).1 = some r' ∧
      r'.finalized_by_doctor_id = some 7 ∧
      r'.status = "Finalized" ∧
      ((insert_result_details initDB "S1" "GLU" "5.0" "mg/dL" "0-1"
          0).1.status = "Pending" →
        r'.verified_by_doctor_id = some 7) ∧
      ((insert_result_details initDB "S1" "GLU" "5.0" "mg/dL" "0-1"
          0).1.status = "Verified" →
        r'.verified_by_doctor_id =
          (insert_result_details initDB "S1" "GLU" "5.0" "mg/dL" "0-1"
            0).1.verified_by_doctor_id) ∧
      (update_result_finalization
        (insert_result_details initDB "S1" "GLU" "5.0" "mg/dL" "0-1" 0).2
        1 7).2.results.find? (fun x => x.id == 1) = some r' :=
  c2_finalize_transition
    (insert_result_details initDB "S1" "GLU" "5.0" "mg/dL" "0-1" 0).2 1 7
    (insert_result_details initDB "S1" "GLU" "5.0" "mg/dL" "0-1" 0).1
    (by decide)

/-! ## C1 — the lifecycle invariant on reachable stores -/

/-- Amended C1: on every reachable store, a set `finalized_by` or a set
`verified_by` forces status `Verified` or `Finalized`. -/
theorem c1_lifecycle_invariant {db : DB} (h : Reachable db) :
    LifecycleInv db := by
  induction h with
  | init => intro r hr; simp [initDB] at hr
  | insertR s t v u rr dt db _ ih =>
    intro r hr
    simp only [insert_result_details, List.mem_append,
      List.mem_singleton] at hr
    rcases hr with hr | rfl
    · exact ih r hr
    · exact ⟨fun hne => absurd rfl hne, fun hne => absurd rfl hne⟩
  | verifyR rid did db hdb ih =>
    intro r hr
    rcases hfind : List.find? (fun x => x.id == rid) db.results with _ | r0
    · simp only [update_result_verification, hfind] at hr
      exact ih r hr
    · simp only [update_result_verification, hfind] at hr
      rcases mem_updateFirst hr with hmem | ⟨a, _, rfl⟩
      · exact ih r hmem
      · exact ⟨fun _ => Or.inl rfl, fun _ => Or.inl rfl⟩
  | finalizeR rid did db hdb ih =>
    intro r hr
    rcases hfind : List.find? (fun x => x.id == rid) db.results with _ | r0
    · simp only [update_result_finalization, hfind] at hr
      exact ih r hr
    · simp only [update_result_finalization, hfind] at hr
      rcases mem_updateFirst hr with hmem | ⟨a, _, rfl⟩
      · exact ih r hmem
      · exact ⟨fun _ => Or.inr rfl, fun _ => Or.inr rfl⟩
  | linkR rid n a g ph db out hdb hcreate ih =>
    intro r hr
    rcases hfind : List.find? (fun x => x.id == rid) db.results with _ | r0
    · simp only [create_patient_for_result, hfind] at hcreate
      cases hcreate
      exact ih r hr
    · rcases hpat : r0.patient_fk.bind (fun pid =>
          List.find? (fun p => p.id == pid) db.patients) with _ | p0
      · rcases hnext : get_next_patient_id db.patients with _ | ext
        · simp only [create_patient_for_result, hfind, hpat, hnext] at hcreate
          exact Option.noConfusion hcreate
        · simp only [create_patient_for_result, hfind, hpat, hnext] at hcreate
          cases hcreate
          simp only at hr
          rcases mem_updateFirst hr with hmem | ⟨b, hb, rfl⟩
          · exact ih r hmem
          · exact ih b hb
      · simp only [create_patient_for_result, hfind, hpat] at hcreate
        cases hcreate
        exact ih r hr

/-- Witness for C1 at the store holding one freshly inserted result. -/
theorem c1_witness :
    LifecycleInv (insert_result_details initDB "S1" "GLU" "5.0" "mg/dL"
      "0-1" 0).2 :=
  c1_lifecycle_invariant
    (Reachable.insertR "S1" "GLU" "5.0" "mg/dL" "0-1" 0 initDB Reachable.init)

/-- Counterexample to C1 as stated: inserting a result, finalizing it and
then re-verifying it reaches a store whose single result has `finalized_by`
set while its status is `Verified`, not `Finalized`. -/
theorem c1_counterexample : Reachable c1db ∧ ¬ LifecycleClaimInv c1db :=
  ⟨Reachable.verifyR 1 7 _ (Reachable.finalizeR 1 7 _
      (Reachable.insertR "S1" "GLU" "5.0" "mg/dL" "0-1" 0 initDB
        Reachable.init)),
    by unfold LifecycleClaimInv; decide⟩

/-! ## C3 — the frame decoder -/

/-- Amended C3: when both markers occur, the decoder returns the slice
between the first 0x02 and the first 0x03 of the **whole buffer**
(`data[stx+1:etx]`); this coincides with "the first 0x03 following the
first 0x02" exactly when the buffer's first 0x03 comes after its first
0x02.  When either marker is absent no payload is produced. -/
theorem c3_frame_decoder_amended (data : List Nat) :
    (∀ s e, pyFindByte 2 data = some s → pyFindByte 3 data = some e →
      frameDecode data = some ((data.take e).drop (s + 1)) ∧
      (s < e → frameDecode data = frameDecodeSpec data)) ∧
    (pyFindByte 2 data = none ∨ pyFindByte 3 data = none →
      frameDecode data = none) := by
  constructor
  · intro s e h2 h3
    constructor
    · simp [frameDecode, h2, h3]
    · intro hlt
      have hdrop := pyFindByte_drop 3 (s + 1) data e h3 (by omega)
      simp [frameDecode, frameDecodeSpec, h2, h3, hdrop, List.drop_take]
  · intro h
    rcases h with h | h
    · simp [frameDecode, h]
    · cases h2 : pyFindByte 2 data <;> simp [frameDecode, h, h2]

/-- Witness for C3 at a well-formed frame and at a marker-free buffer. -/
theorem c3_witness :
    frameDecode [2, 65, 66, 3] = some [65, 66] ∧
    frameDecode [2, 65, 66, 3] = frameDecodeSpec [2, 65, 66, 3] ∧
    frameDecode [65, 66] = none := by
  have h1 := (c3_frame_decoder_amended [2, 65, 66, 3]).1 0 3
    (by decide) (by decide)
  exact ⟨h1.1.trans (by decide), h1.2 (by decide),
    (c3_frame_decoder_amended [65, 66]).2 (Or.inl (by decide))⟩

/-- Counterexample to C3 as stated: in `[0x03, 0x02, 0x41, 0x03]` the first
0x03 following the first 0x02 delimits the payload `[0x41]`, but the code
uses the buffer's first 0x03 (index 0) and yields the empty payload. -/
theorem c3_counterexample :
    pyFindByte 2 [3, 2, 65, 3] = some 1 ∧
    pyFindByte 3 ([3, 2, 65, 3].drop 2) = some 1 ∧
    frameDecodeSpec [3, 2, 65, 3] = some [65] ∧
    frameDecode [3, 2, 65, 3] = some [] ∧
    frameDecode [3, 2, 65, 3] ≠ frameDecodeSpec [3, 2, 65, 3] := by decide

/-! ## C6 — the upper date bound of the results search -/

/-- Amended C6: with only an upper date bound supplied, a result is returned
exactly when its timestamp is **at or before** the first second of the day
after `to` (the bound `to + 1 day` is inclusive, not exclusive); in
particular a result timestamped at `to` 23:59:59 is returned. -/
theorem c6_to_date_bound (db : DB) (t : Int) (r : ResultRec) :
    (r ∈ search_results db { to_date := some t } ↔
      r ∈ db.results ∧ r.date_time ≤ startOfDayAfter t) ∧
    (r ∈ db.results → r.date_time = t * 86400 + 86399 →
      r ∈ search_results db { to_date := some t }) := by
  have hmain : r ∈ search_results db { to_date := some t } ↔
      r ∈ db.results ∧ r.date_time ≤ startOfDayAfter t := by
    simp [search_results, List.mem_filter, matchesQuery, sampleOk,
      patientOk, testOk, fromOk, toOk, statusOk, strSet, startOfDayAfter]
  refine ⟨hmain, fun hmem hdt => hmain.mpr ⟨hmem, ?_⟩⟩
  rw [hdt, startOfDayAfter]
  omega

/-- Witness for C6: the result timestamped at 23:59:59 of day 0 is returned
when `to` is day 0. -/
theorem c6_witness :
    rLastSecond ∈ search_results c6db { to_date := some 0 } :=
  (c6_to_date_bound c6db 0 rLastSecond).2 (by decide) (by decide)

/-- Counterexample to C6 as stated: the result timestamped exactly at the
first second of day 1 is returned for `to` = day 0, although it is not
strictly before the start of the day after `to`. -/
theorem c6_counterexample :
    rMidnight ∈ search_results c6db { to_date := some 0 } ∧
    ¬(rMidnight.date_time < startOfDayAfter 0) := by decide

/-! ## C8 — the status filter -/

/-- Amended C8: the status filter is an exact match and its no-filter
sentinel is the literal `"All"` (case-sensitive); any other supplied
non-empty value returns exactly the results with that status. -/
theorem c8_status_filter (db : DB) (v : String) :
    search_results db { status := some "All" } = db.results ∧
    (v ≠ "" → v ≠ "All" →
      search_results db { status := some v } =
        db.results.filter (fun r => r.status == v)) := by
  constructor
  · exact List.filter_eq_self.mpr (fun r _ => rfl)
  · intro h1 h2
    rw [search_results]
    apply List.filter_congr
    intro r _
    have hv1 : (v != "") = true := by simpa using h1
    have hv2 : (v != "All") = true := by simpa using h2
    simp [matchesQuery, sampleOk, patientOk, testOk, fromOk, toOk,
      statusOk, strSet, hv1, hv2]

/-- Witness for C8: filtering `c6db` for status `Pending`. -/
theorem c8_witness :
    search_results c6db { status := some "Pending" } =
      c6db.results.filter (fun r => r.status == "Pending") :=
  (c8_status_filter c6db "Pending").2 (by decide) (by decide)

/-- Counterexample to C8 as stated: supplying the lowercase value `"all"`
is not the sentinel — it is matched exactly, so a store of Pending results
yields an empty search instead of all results. -/
theorem c8_counterexample :
    search_results c6db { status := some "all" } = [] ∧
    search_results c6db { status := some "all" } ≠ c6db.results := by decide

/-! ## C4 — the message parser -/

theorem ovr_none (x : Option String) : ovr x none = x := by
  cases x <;> rfl

theorem astmData_ext (x y : AstmData)
    (h1 : x.sample_id = y.sample_id) (h2 : x.test_name = y.test_name)
    (h3 : x.value = y.value) (h4 : x.unit = y.unit)
    (h5 : x.ref_range = y.ref_range) (h6 : x.status = y.status)
    (h7 : x.datetime = y.datetime) : x = y := by
  cases x; cases y; simp_all

theorem parseSegment_sample (d : AstmData) (seg : String) :
    (parseSegment d seg).sample_id =
      ovr (contribSample (pySplit '|' seg)) d.sample_id := by
  by_cases hO : (pySplit '|' seg).headD "" = "O"
  · simp only [parseSegment, contribSample, ovr, if_pos hO]
    split_ifs <;> rfl
  · simp only [parseSegment, contribSample, ovr, if_neg hO]
    split_ifs <;> rfl

theorem parseSegment_test (d : AstmData) (seg : String) :
    (parseSegment d seg).test_name =
      ovr (contribTest (pySplit '|' seg)) d.test_name := by
  by_cases hO : (pySplit '|' seg).headD "" = "O"
  · simp only [parseSegment, contribTest, ovr, if_pos hO]
    split_ifs <;> rfl
  · simp only [parseSegment, contribTest, ovr, if_neg hO]
    split_ifs <;> rfl

theorem parseSegment_value (d : AstmData) (seg : String) :
    (parseSegment d seg).value =
      ovr (contribR 3 (pySplit '|' seg)) d.value := by
  by_cases hO : (pySplit '|' seg).headD "" = "O"
  · have hR : ¬ (pySplit '|' seg).headD "" = "R" := by rw [hO]; decide
    simp only [parseSegment, contribR, ovr, if_pos hO, if_neg hR]
    split_ifs <;> rfl
  · simp only [parseSegment, contribR, ovr, if_neg hO]
    split_ifs <;> rfl

theorem parseSegment_unit (d : AstmData) (seg : String) :
    (parseSegment d seg).unit =
      ovr (contribR 4 (pySplit '|' seg)) d.unit := by
  by_cases hO : (pySplit '|' seg).headD "" = "O"
  · have hR : ¬ (pySplit '|' seg).headD "" = "R" := by rw [hO]; decide
    simp only [parseSegment, contribR, ovr, if_pos hO, if_neg hR]
    split_ifs <;> rfl
  · simp only [parseSegment, contribR, ovr, if_neg hO]
    split_ifs <;> rfl

theorem parseSegment_ref (d : AstmData) (seg : String) :
    (parseSegment d seg).ref_range =
      ovr (contribR 5 (pySplit '|' seg)) d.ref_range := by
  by_cases hO : (pySplit '|' seg).headD "" = "O"
  · have hR : ¬ (pySplit '|' seg).headD "" = "R" := by rw [hO]; decide
    simp only [parseSegment, contribR, ovr, if_pos hO, if_neg hR]
    split_ifs <;> rfl
  · simp only [parseSegment, contribR, ovr, if_neg hO]
    split_ifs <;> rfl

theorem parseSegment_status (d : AstmData) (seg : String) :
    (parseSegment d seg).status =
      ovr (contribR 8 (pySplit '|' seg)) d.status := by
  by_cases hO : (pySplit '|' seg).headD "" = "O"
  · have hR : ¬ (pySplit '|' seg).headD "" = "R" := by rw [hO]; decide
    simp only [parseSegment, contribR, ovr, if_pos hO, if_neg hR]
    split_ifs <;> rfl
  · simp only [parseSegment, contribR, ovr, if_neg hO]
    split_ifs <;> rfl

theorem parseSegment_datetime (d : AstmData) (seg : String) :
    (parseSegment d seg).datetime =
      ovr (contribR 11 (pySplit '|' seg)) d.datetime := by
  by_cases hO : (pySplit '|' seg).headD "" = "O"
  · have hR : ¬ (pySplit '|' seg).headD "" = "R" := by rw [hO]; decide
    simp only [parseSegment, contribR, ovr, if_pos hO, if_neg hR]
    split_ifs <;> rfl
  · simp only [parseSegment, contribR, ovr, if_neg hO]
    split_ifs <;> rfl

theorem foldl_field (proj : AstmData → Option String)
    (c : List String → Option String)
    (hstep : ∀ d seg, proj (parseSegment d seg) =
      ovr (c (pySplit '|' seg)) (proj d)) :
    ∀ (segs : List String) (d : AstmData),
      proj (segs.foldl parseSegment d) = ovr (lastContrib c segs) (proj d)
  | [], _ => rfl
  | a :: l, d => by
    rw [List.foldl_cons, foldl_field proj c hstep l (parseSegment d a),
      hstep, lastContrib]
    cases lastContrib c l <;> cases c (pySplit '|' a) <;> simp [ovr]

/-- Amended C4: the parser first strips leading and trailing whitespace from
the payload, then splits on carriage-return into segments and each segment
on `|` into fields with field 0 as the tag; an `O` segment contributes a
sample identifier from field 2 and a test name from component 3 of field 4
split on `^`; an `R` segment contributes value, unit, reference range,
status code and timestamp from fields 3, 4, 5, 8, 11; out-of-range rules
are skipped, unrecognized tags contribute nothing, and the later segment's
value wins for a field produced twice. -/
theorem c4_parser_contract (s : String) :
    parse_astm s = parseAstmSpec (pyStrip s) := by
  apply astmData_ext <;>
    rw [parse_astm, parseAstmSpec] <;>
    simp only [foldl_field (fun d => d.sample_id) contribSample
        parseSegment_sample,
      foldl_field (fun d => d.test_name) contribTest parseSegment_test,
      foldl_field (fun d => d.value) (contribR 3) parseSegment_value,
      foldl_field (fun d => d.unit) (contribR 4) parseSegment_unit,
      foldl_field (fun d => d.ref_range) (contribR 5) parseSegment_ref,
      foldl_field (fun d => d.status) (contribR 8) parseSegment_status,
      foldl_field (fun d => d.datetime) (contribR 11) parseSegment_datetime,
      ovr_none]

/-- Counterexample to C4 as stated: on the payload `" O|1|S1"` the code
strips the leading blank and recognizes the `O` segment, while splitting
the payload as-is gives the unrecognized tag `" O"` which must contribute
nothing. -/
theorem c4_counterexample :
    parse_astm " O|1|S1" ≠ parseAstmSpec " O|1|S1" ∧
    parse_astm " O|1|S1" = { sample_id := some "S1" } ∧
    parseAstmSpec " O|1|S1" = ({} : AstmData) := by decide


/-! ## C7 — monotonic narrowing of the results search -/

theorem sampleOk_mono {q q' : ResultsQuery} {r : ResultRec}
    (hx : strSet q.sample_id = true → q'.sample_id = q.sample_id)
    (h : sampleOk q' r = true) : sampleOk q r = true := by
  by_cases hs : strSet q.sample_id = true
  · unfold sampleOk at h ⊢
    rw [hx hs] at h
    exact h
  · unfold sampleOk
    simp only [Bool.not_eq_true] at hs
    simp [hs]

theorem testOk_mono {q q' : ResultsQuery} {r : ResultRec}
    (hx : strSet q.test_name = true → q'.test_name = q.test_name)
    (h : testOk q' r = true) : testOk q r = true := by
  by_cases hs : strSet q.test_name = true
  · unfold testOk at h ⊢
    rw [hx hs] at h
    exact h
  · unfold testOk
    simp only [Bool.not_eq_true] at hs
    simp [hs]

theorem fromOk_mono {q q' : ResultsQuery} {r : ResultRec}
    (hx : q.from_date.isSome = true → q'.from_date = q.from_date)
    (h : fromOk q' r = true) : fromOk q r = true := by
  unfold fromOk at h ⊢
  cases hq : q.from_date with
  | none => rfl
  | some f =>
    have he : q'.from_date = q.from_date := hx (by rw [hq]; rfl)
    rw [he, hq] at h
    exact h

theorem toOk_mono {q q' : ResultsQuery} {r : ResultRec}
    (hx : q.to_date.isSome = true → q'.to_date = q.to_date)
    (h : toOk q' r = true) : toOk q r = true := by
  unfold toOk at h ⊢
  cases hq : q.to_date with
  | none => rfl
  | some t =>
    have he : q'.to_date = q.to_date := hx (by rw [hq]; rfl)
    rw [he, hq] at h
    exact h

theorem statusOk_mono {q q' : ResultsQuery} {r : ResultRec}
    (hx : statusActive q = true → q'.status = q.status)
    (h : statusOk q' r = true) : statusOk q r = true := by
  by_cases hs : statusActive q = true
  · unfold statusOk at h ⊢
    rw [hx hs] at h
    exact h
  · unfold statusOk
    cases hq : q.status with
    | none => rfl
    | some v =>
      have hv : (v != "" && v != "All") = false := by
        simp only [statusActive, hq] at hs
        simpa using hs
      simp [hv]

theorem patientOk_mono (db : DB) {q q' : ResultsQuery} {r : ResultRec}
    (hpi : strSet q.patient_id = true → q'.patient_id = q.patient_id)
    (hpn : strSet q.patient_name = true → q'.patient_name = q.patient_name)
    (hw : q.without_patient_info = true → q'.without_patient_info = true)
    (hguard : q.without_patient_info = true →
      (strSet q'.patient_id || strSet q'.patient_name) = true →
      (strSet q.patient_id || strSet q.patient_name) = true)
    (h : patientOk db q' r = true) : patientOk db q r = true := by
  by_cases hP : (strSet q.patient_id || strSet q.patient_name) = true
  · have hP' : (strSet q'.patient_id || strSet q'.patient_name) = true := by
      rcases Bool.or_eq_true_iff.mp hP with h1 | h1
      · exact Bool.or_eq_true_iff.mpr (Or.inl (by rw [hpi h1]; exact h1))
      · exact Bool.or_eq_true_iff.mpr (Or.inr (by rw [hpn h1]; exact h1))
    unfold patientOk at h ⊢
    rw [if_pos hP'] at h
    rw [if_pos hP]
    cases hfk : r.patient_fk with
    | none =>
      rw [hfk] at h
      exact Bool.noConfusion h
    | some pid =>
      rw [hfk] at h
      obtain ⟨p, hp, hcond⟩ := List.any_eq_true.mp h
      refine List.any_eq_true.mpr ⟨p, hp, ?_⟩
      have h12 := Bool.and_eq_true_iff.mp hcond
      have h1 := Bool.and_eq_true_iff.mp h12.1
      refine Bool.and_eq_true_iff.mpr ⟨Bool.and_eq_true_iff.mpr
        ⟨h1.1, ?_⟩, ?_⟩
      · by_cases hs : strSet q.patient_id = true
        · have hcl := h1.2
          rw [hpi hs] at hcl
          exact hcl
        · simp only [Bool.not_eq_true] at hs
          simp [hs]
      · by_cases hs : strSet q.patient_name = true
        · have hcl := h12.2
          rw [hpn hs] at hcl
          exact hcl
        · simp only [Bool.not_eq_true] at hs
          simp [hs]
  · by_cases hw0 : q.without_patient_info = true
    · by_cases hP' : (strSet q'.patient_id || strSet q'.patient_name) = true
      · exact absurd (hguard hw0 hP') hP
      · unfold patientOk at h ⊢
        rw [if_neg hP', if_pos (hw hw0)] at h
        rw [if_neg hP, if_pos hw0]
        exact h
    · unfold patientOk
      rw [if_neg hP, if_neg hw0]

theorem matchesQuery_mono (db : DB) {q q' : ResultsQuery} {r : ResultRec}
    (hx : extendsQ q q')
    (hguard : q.without_patient_info = true →
      (strSet q'.patient_id || strSet q'.patient_name) = true →
      (strSet q.patient_id || strSet q.patient_name) = true)
    (h : matchesQuery db q' r = true) : matchesQuery db q r = true := by
  obtain ⟨x1, x2, x3, x4, x5, x6, x7, x8⟩ := hx
  simp only [matchesQuery, Bool.and_eq_true] at h ⊢
  obtain ⟨⟨⟨⟨⟨hs, hp⟩, ht⟩, hf⟩, hto⟩, hst⟩ := h
  exact ⟨⟨⟨⟨⟨sampleOk_mono x1 hs, patientOk_mono db x2 x3 x7 hguard hp⟩,
    testOk_mono x4 ht⟩, fromOk_mono x5 hf⟩, toOk_mono x6 hto⟩,
    statusOk_mono x8 hst⟩

/-- Amended C7: a search with no filters returns every result, and a search
whose filters extend another's returns a subset of it, **except** in the
one branch switch the code performs: when the base query has
`without_patient_info` set and only the extension supplies a patient
filter, the no-patient constraint is replaced by the patient join. -/
theorem c7_monotonic_narrowing :
    (∀ db : DB, search_results db {} = db.results) ∧
    (∀ (db : DB) (q q' : ResultsQuery), extendsQ q q' →
      (q.without_patient_info = true →
        (strSet q'.patient_id || strSet q'.patient_name) = true →
        (strSet q.patient_id || strSet q.patient_name) = true) →
      ∀ r, r ∈ search_results db q' → r ∈ search_results db q) := by
  constructor
  · intro db
    exact List.filter_eq_self.mpr (fun r _ => rfl)
  · intro db q q' hx hguard r hr
    obtain ⟨hmem, hmatch⟩ := List.mem_filter.mp hr
    exact List.mem_filter.mpr ⟨hmem, matchesQuery_mono db hx hguard hmatch⟩

/-- Witness for C7: adding a sample-identifier filter narrows the
unfiltered search on the two-result store. -/
theorem c7_witness : c7unlinked ∈ search_results c7db ({} : ResultsQuery) :=
  c7_monotonic_narrowing.2 c7db {} { sample_id := some "S1" } (by decide)
    (fun hfalse _ => Bool.noConfusion hfalse) c7unlinked (by decide)

/-- Counterexample to C7 as stated: adding the patient-identifier filter
`"P"` to the search for results without patient info returns the linked
result, which the unextended search does not return — the extension is not
a subset of the base search. -/
theorem c7_counterexample :
    ¬ (∀ (db : DB) (q q' : ResultsQuery), extendsQ q q' →
      ∀ r, r ∈ search_results db q' → r ∈ search_results db q) := fun h =>
  absurd (h c7db c7q c7q' (by decide) c7linked (by decide)) (by decide)
